import Mathlib

/-!
Verification of the session-identity and control-protocol layer of the
5G-ERA Network Application server (`era_5g_server/server.py`).

The server object delegates all session bookkeeping to the transport
collaborator (the socketio server and its manager); the methods under
verification are pure readers of that table plus the connect / disconnect /
command callbacks, whose observable behaviour is a list of emitted events,
log lines and handler invocations.  We embed the transport session table as
an explicit structure (`Manager`), each callback as a function from the
current table to its return value together with the list of observable
actions it performs, and the transport event loop (which calls the
callbacks and mutates the table) as functions `transportConnect` /
`transportDisconnect` following the documented behaviour of the transport:
on disconnect the registered handler runs to completion before the manager
entry is removed, and an emit addressed to a session that is not connected
is silently dropped.
-/

namespace EraServer

/-- Transport-level (engineio) connection identifier. -/
abbrev EioSid := String

/-- Namespace-scoped (socketio) session identifier. -/
abbrev Sid := String

/-- An opaque Python value appearing in an inbound payload dictionary. -/
abbrev PyVal := String

/-- Modelled from the spec: namespace name constant imported from
`era_5g_interface.channels` (external package, not under src).  Only its
distinctness from `CONTROL_NAMESPACE` matters here. -/
def DATA_NAMESPACE : String := "/data"

/-- Modelled from the spec: namespace name constant imported from
`era_5g_interface.channels` (external package, not under src). -/
def CONTROL_NAMESPACE : String := "/control"

/-- Modelled from the spec: the structured error event name imported from
`era_5g_interface.channels` (external package, not under src). -/
def COMMAND_ERROR_EVENT : String := "command_error"

/-- Python `str()` applied to an optional string: `str(None)` is the
four-character string `None`, and `str` of a string is itself. -/
def pyStr : Option String → String
  | none => "None"
  | some s => s

/-- The transport session table: one entry `(namespace, eio_sid, sid)` per
live namespace session.  Modelled from the transport collaborator (the
socketio base manager): `connect` records the pair in both lookup
directions, `disconnect` removes it, and a lookup that finds nothing
returns the Python `None` (modelled as `Option.none`) instead of raising. -/
structure Manager where
  entries : List (String × EioSid × Sid)
  deriving DecidableEq, Repr

/-- `manager.sid_from_eio_sid(eio_sid, namespace)` of the transport:
the namespace session id recorded for the connection, or `None`. -/
def Manager.sid_from_eio_sid (m : Manager) (eio_sid : EioSid) (ns : String) :
    Option Sid :=
  (m.entries.find? (fun p => p.1 == ns && p.2.1 == eio_sid)).map (fun p => p.2.2)

/-- `manager.eio_sid_from_sid(sid, namespace)` of the transport:
the transport connection id recorded for the session, or `None`. -/
def Manager.eio_sid_from_sid (m : Manager) (sid : Sid) (ns : String) :
    Option EioSid :=
  (m.entries.find? (fun p => p.1 == ns && p.2.2 == sid)).map (fun p => p.2.1)

/-- Whether a session `sid` is currently connected to namespace `ns`. -/
def Manager.hasSession (m : Manager) (ns : String) (sid : Sid) : Bool :=
  m.entries.any (fun p => p.1 == ns && p.2.2 == sid)

/-- All session ids currently connected to namespace `ns`. -/
def Manager.sessionsOf (m : Manager) (ns : String) : List Sid :=
  (m.entries.filter (fun p => p.1 == ns)).map (fun p => p.2.2)

/-- The transport records a fresh namespace session on connect.  A new
entry shadows any stale one exactly as the dictionary assignment of the
transport manager overwrites it. -/
def transportConnect (m : Manager) (ns : String) (eio_sid : EioSid) (sid : Sid) :
    Manager :=
  ⟨(ns, eio_sid, sid) :: m.entries⟩

/-- The transport removes a namespace session on disconnect. -/
def Manager.removeSession (m : Manager) (ns : String) (sid : Sid) : Manager :=
  ⟨m.entries.filter (fun p => !(p.1 == ns && p.2.2 == sid))⟩

/-- `NetworkApplicationServer.get_sid_of_namespace`: wraps the transport
lookup in Python `str()`, so a missing session comes back as the string
`None` rather than an exception. -/
def get_sid_of_namespace (m : Manager) (eio_sid : EioSid) (ns : String) : String :=
  pyStr (m.sid_from_eio_sid eio_sid ns)

/-- `ServerChannels.get_client_eio_sid` of the external interface package
(not under src), modelled as the transport lookup it forwards to: it
returns the Python `None` when the session is absent, despite its declared
`str` return type. -/
def get_client_eio_sid (m : Manager) (sid : Sid) (ns : String) : Option EioSid :=
  m.eio_sid_from_sid sid ns

/-- `NetworkApplicationServer.get_eio_sid_of_namespace`: forwards to
`get_client_eio_sid`. -/
def get_eio_sid_of_namespace (m : Manager) (sid : Sid) (ns : String) :
    Option EioSid :=
  get_client_eio_sid m sid ns

/-- `NetworkApplicationServer.get_sid_of_data`. -/
def get_sid_of_data (m : Manager) (eio_sid : EioSid) : String :=
  get_sid_of_namespace m eio_sid DATA_NAMESPACE

/-- `NetworkApplicationServer.get_sid_of_control`. -/
def get_sid_of_control (m : Manager) (eio_sid : EioSid) : String :=
  get_sid_of_namespace m eio_sid CONTROL_NAMESPACE

/-- `NetworkApplicationServer.get_eio_sid_of_data`. -/
def get_eio_sid_of_data (m : Manager) (sid : Sid) : Option EioSid :=
  get_client_eio_sid m sid DATA_NAMESPACE

/-- `NetworkApplicationServer.get_eio_sid_of_control`. -/
def get_eio_sid_of_control (m : Manager) (sid : Sid) : Option EioSid :=
  get_client_eio_sid m sid CONTROL_NAMESPACE

/-- Modelled from the spec: the `ControlCommand` dataclass of the external
interface package (not under src).  It has the mandatory discriminator
field `cmd_type` plus an optional command-specific `data` field; calling
its constructor with an unknown keyword or without `cmd_type` raises a
`TypeError`. -/
structure ControlCommand where
  cmd_type : PyVal
  data : Option PyVal := none
  deriving DecidableEq, Repr

/-- Modelled from the spec: `repr` of the `TypeError` raised when the
payload lacks the mandatory `cmd_type` field (stylised text; the claims
depend only on this string being propagated verbatim). -/
def missingCmdTypeRepr : String :=
  "TypeError(missing 1 required positional argument cmd_type)"

/-- Modelled from the spec: `repr` of the `TypeError` raised when the
payload holds a field the schema does not know. -/
def unexpectedKeywordRepr (key : String) : String :=
  "TypeError(got an unexpected keyword argument " ++ key ++ ")"

/-- The keyword parameters accepted by the `ControlCommand` constructor. -/
def allowedKeys : List String := ["cmd_type", "data"]

/-- `ControlCommand(**data)`: keyword binding of the payload dictionary
onto the dataclass constructor.  An unknown keyword or a missing
`cmd_type` raises `TypeError` (modelled as `Except.error` carrying the
`repr` of the exception); otherwise the command is reconstructed from the
payload fields. -/
def parseControlCommand (data : List (String × PyVal)) :
    Except String ControlCommand :=
  match data.find? (fun kv => !(allowedKeys.contains kv.1)) with
  | some kv => .error (unexpectedKeywordRepr kv.1)
  | none =>
    match data.find? (fun kv => kv.1 == "cmd_type") with
    | none => .error missingCmdTypeRepr
    | some kv =>
      .ok { cmd_type := kv.2
            data := (data.find? (fun kv2 => kv2.1 == "data")).map (fun kv2 => kv2.2) }

/-- Payload of an emitted event: either the structured error dictionary
holding a single `error` field, or a plain text message. -/
inductive EmitPayload where
  | errorDict (error : String)
  | text (s : String)
  deriving DecidableEq, Repr

/-- One observable action performed by a callback: an event emission on
the transport, a log line, or the invocation of a user-supplied or
default handler. -/
inductive Action where
  | emit (event : String) (payload : EmitPayload) (ns : String) (target : Option Sid)
  | log (message : String)
  | invokeUserCommand (cmd : ControlCommand) (sid : Sid)
  | invokeDefaultCommand (cmd : ControlCommand) (sid : Sid)
  | invokeUserDisconnect (sid : Sid)
  | invokeDefaultDisconnect (sid : Sid)
  deriving DecidableEq, Repr

/-- Whether an action is an emission of the structured command-error
event. -/
def Action.isErrorEmit : Action → Bool
  | .emit event _ _ _ => event == COMMAND_ERROR_EVENT
  | _ => false

/-- The command-error emissions of a trace. -/
def errorEmits (acts : List Action) : List Action :=
  acts.filter Action.isErrorEmit

/-- Whether an action invokes a command handler (user-supplied or
default). -/
def Action.isCommandInvoke : Action → Bool
  | .invokeUserCommand _ _ => true
  | .invokeDefaultCommand _ _ => true
  | _ => false

/-- The command-handler invocations of a trace. -/
def commandInvokes (acts : List Action) : List Action :=
  acts.filter Action.isCommandInvoke

/-- Whether an action invokes a disconnect handler (user-supplied or
default). -/
def Action.isDisconnectInvoke : Action → Bool
  | .invokeUserDisconnect _ => true
  | .invokeDefaultDisconnect _ => true
  | _ => false

/-- The disconnect-handler invocations of a trace. -/
def disconnectInvokes (acts : List Action) : List Action :=
  acts.filter Action.isDisconnectInvoke

/-- Whether an action is an emission. -/
def Action.isEmit : Action → Bool
  | .emit _ _ _ _ => true
  | _ => false

/-- Modelled from the transport collaborator: the sessions that receive
an emission.  A `to` target that is not connected receives nothing (the
emission is silently dropped); an emission without a target is broadcast
to every session of the namespace. -/
def recipients (m : Manager) (ns : String) (target : Option Sid) : List Sid :=
  match target with
  | some sid => if m.hasSession ns sid then [sid] else []
  | none => m.sessionsOf ns

/-- The `(recipient, event)` pairs delivered by a trace against the
current session table. -/
def deliveredTo (m : Manager) (acts : List Action) : List (Sid × String) :=
  acts.foldr
    (fun a r =>
      match a with
      | .emit event _ ns target => ((recipients m ns target).map (fun s => (s, event))) ++ r
      | _ => r)
    []

/-- The callbacks stored on the server at construction: the optional
user-supplied command handler and the optional user-supplied disconnect
handler (whose body is opaque to this core; the trace records its
invocation). -/
structure ServerConfig where
  command_callback : Option (ControlCommand → Sid → Bool × String)
  disconnect_callback : Option Unit

/-- `NetworkApplicationServer.command_callback`: the default command
handler, which unconditionally reports acceptance. -/
def command_callback (_cmd : ControlCommand) (_sid : Sid) : Bool × String :=
  (true, "Control command callback applied")

/-- `NetworkApplicationServer.disconnect_callback`: the default
disconnect handler, a no-op. -/
def disconnect_callback (_sid : Sid) : Unit := ()

/-- `NetworkApplicationServer.send_command_error`: emits the structured
error payload on the control namespace to the given session.  It touches
no server state and returns nothing; its whole effect is the single
emission. -/
def send_command_error (m : Manager) (message : String) (sid : Sid) :
    Manager × List Action :=
  (m, [Action.emit COMMAND_ERROR_EVENT (EmitPayload.errorDict message)
        CONTROL_NAMESPACE (some sid)])

/-- `NetworkApplicationServer.control_command_callback`: parses the
inbound payload into a `ControlCommand`; on `TypeError` it logs, emits one
structured error event to the originating session and returns the failure
outcome; on success it logs and dispatches to the user handler when
registered, else to the default handler, propagating the outcome
verbatim. -/
def control_command_callback (cfg : ServerConfig) (m : Manager) (sid : Sid)
    (data : List (String × PyVal)) : (Bool × String) × List Action :=
  match parseControlCommand data with
  | .error e =>
    ((false, "Could not parse Control Command. " ++ e),
      [Action.log ("Could not parse Control Command. " ++ e),
       Action.emit COMMAND_ERROR_EVENT
         (EmitPayload.errorDict ("Could not parse Control Command. " ++ e))
         CONTROL_NAMESPACE (some sid)])
  | .ok cmd =>
    let lg := Action.log ("Control command " ++ cmd.cmd_type ++ " parsed, eio_sid "
      ++ pyStr (get_eio_sid_of_control m sid) ++ ", sid " ++ sid)
    match cfg.command_callback with
    | some f => (f cmd sid, [lg, Action.invokeUserCommand cmd sid])
    | none => (command_callback cmd sid, [lg, Action.invokeDefaultCommand cmd sid])

/-- `NetworkApplicationServer.data_connect_callback`: logs the connect and
sends the welcome text on the data namespace.  The send names the new
session in its text but carries no target, so the transport treats it as a
namespace broadcast.  The callback reads the session table and never
writes it. -/
def data_connect_callback (m : Manager) (sid : Sid) : List Action :=
  [Action.log ("Client " ++ pyStr (get_client_eio_sid m sid DATA_NAMESPACE)
     ++ " connected to " ++ DATA_NAMESPACE ++ " namespace " ++ sid),
   Action.emit "message"
     (EmitPayload.text ("You are connected to " ++ DATA_NAMESPACE
       ++ " namespace " ++ sid))
     DATA_NAMESPACE none]

/-- `NetworkApplicationServer.control_connect_callback`: logs the connect
and sends the welcome text on the control namespace, again without a
target. -/
def control_connect_callback (m : Manager) (sid : Sid) : List Action :=
  [Action.log ("Client " ++ pyStr (get_client_eio_sid m sid CONTROL_NAMESPACE)
     ++ " connected to " ++ CONTROL_NAMESPACE ++ " namespace " ++ sid),
   Action.emit "message"
     (EmitPayload.text ("You are connected to " ++ CONTROL_NAMESPACE
       ++ " namespace " ++ sid))
     CONTROL_NAMESPACE none]

/-- `NetworkApplicationServer.data_disconnect_callback`: invokes the
user-supplied disconnect handler when present, else the default, then logs
the disconnect; the log resolves the (still recorded) session id through
the identity lookup. -/
def data_disconnect_callback (cfg : ServerConfig) (m : Manager) (sid : Sid) :
    List Action :=
  (match cfg.disconnect_callback with
   | some _ => [Action.invokeUserDisconnect sid]
   | none => [Action.invokeDefaultDisconnect sid])
  ++ [Action.log ("Client with eio_sid " ++ pyStr (get_eio_sid_of_data m sid)
       ++ " disconnected from " ++ DATA_NAMESPACE ++ " namespace, sid " ++ sid)]

/-- `NetworkApplicationServer.control_disconnect_callback`: only logs; no
user hook exists for the control namespace. -/
def control_disconnect_callback (m : Manager) (sid : Sid) : List Action :=
  [Action.log ("Client with eio_sid " ++ pyStr (get_eio_sid_of_control m sid)
     ++ " disconnected from " ++ CONTROL_NAMESPACE ++ " namespace, sid " ++ sid)]

/-- Modelled from the transport collaborator: processing of a namespace
disconnect event.  The registered handler for the namespace runs to
completion against the table that still holds the session; only then does
the manager remove the entry. -/
def transportDisconnect (cfg : ServerConfig) (m : Manager) (ns : String)
    (sid : Sid) : Manager × List Action :=
  let acts :=
    if ns == DATA_NAMESPACE then data_disconnect_callback cfg m sid
    else control_disconnect_callback m sid
  (m.removeSession ns sid, acts)

/-- A sample user command handler used as concrete registered callback. -/
def sampleHandler : ControlCommand → Sid → Bool × String :=
  fun cmd sid => (true, cmd.cmd_type ++ " handled for " ++ sid)

/-- A table with two connected data sessions. -/
def twoDataSessions : Manager :=
  Manager.mk [(DATA_NAMESPACE, "e1", "s1"), (DATA_NAMESPACE, "e2", "s2")]

end EraServer

namespace EraServer

/-- C4: after a namespace connect event, the two identity lookups are
mutually inverse for that (connection, namespace) pair, in both
compositions. -/
theorem C4_connect_lookups_inverse (m : Manager) (ns : String)
    (eio_sid : EioSid) (sid : Sid) :
    get_sid_of_namespace (transportConnect m ns eio_sid sid) eio_sid ns = sid ∧
    get_eio_sid_of_namespace (transportConnect m ns eio_sid sid) sid ns
      = some eio_sid ∧
    get_eio_sid_of_namespace (transportConnect m ns eio_sid sid)
      (get_sid_of_namespace (transportConnect m ns eio_sid sid) eio_sid ns) ns
      = some eio_sid ∧
    get_sid_of_namespace (transportConnect m ns eio_sid sid)
      ((get_eio_sid_of_namespace (transportConnect m ns eio_sid sid) sid ns).getD "")
      ns = sid := by
  simp [get_sid_of_namespace, get_eio_sid_of_namespace, get_client_eio_sid,
    Manager.sid_from_eio_sid, Manager.eio_sid_from_sid, transportConnect,
    List.find?, pyStr]

/-- C10: the session-id lookup is total: when no session of the namespace
exists for the connection it returns the string `None`, which is exactly
what it also returns for a genuinely connected session whose id is the
string `None`. -/
theorem C10_lookup_total_returns_none_string (m : Manager) (eio_sid : EioSid)
    (ns : String)
    (h : ∀ p ∈ m.entries, ¬(p.1 = ns ∧ p.2.1 = eio_sid)) :
    get_sid_of_namespace m eio_sid ns = "None" ∧
    get_sid_of_namespace (Manager.mk [(ns, eio_sid, "None")]) eio_sid ns
      = "None" := by
  constructor
  · have hfind : m.entries.find? (fun p => p.1 == ns && p.2.1 == eio_sid) = none := by
      rw [List.find?_eq_none]
      intro p hp
      have := h p hp
      simp only [Bool.and_eq_true, beq_iff_eq]
      intro hc
      exact this ⟨hc.1, hc.2⟩
    simp [get_sid_of_namespace, Manager.sid_from_eio_sid, hfind, pyStr]
  · simp [get_sid_of_namespace, Manager.sid_from_eio_sid, List.find?, pyStr]

/-- C10 witness: a concrete table with one data session, queried for an
unrelated connection on the control namespace. -/
theorem C10_lookup_total_returns_none_string_witness :
    get_sid_of_namespace (Manager.mk [(DATA_NAMESPACE, "e1", "s1")]) "e2"
      CONTROL_NAMESPACE = "None" ∧
    get_sid_of_namespace (Manager.mk [(CONTROL_NAMESPACE, "e2", "None")]) "e2"
      CONTROL_NAMESPACE = "None" :=
  C10_lookup_total_returns_none_string
    (Manager.mk [(DATA_NAMESPACE, "e1", "s1")]) "e2" CONTROL_NAMESPACE
    (by decide)

/-- C1: a payload that fails structural parsing is rejected: the callback
returns `(false, message)` where the message describes the mismatch, the
trace holds exactly one structured error event carrying that description to
the originating control session, and no command handler is invoked. -/
theorem C1_parse_failure_rejected (cfg : ServerConfig) (m : Manager)
    (sid : Sid) (data : List (String × PyVal)) (e : String)
    (h : parseControlCommand data = .error e) :
    (control_command_callback cfg m sid data).1
      = (false, "Could not parse Control Command. " ++ e) ∧
    errorEmits (control_command_callback cfg m sid data).2
      = [Action.emit COMMAND_ERROR_EVENT
          (EmitPayload.errorDict ("Could not parse Control Command. " ++ e))
          CONTROL_NAMESPACE (some sid)] ∧
    commandInvokes (control_command_callback cfg m sid data).2 = [] := by
  simp [control_command_callback, h, errorEmits, commandInvokes,
    Action.isErrorEmit, Action.isCommandInvoke, List.filter]

/-- C1 witness: a payload with an unknown field, evaluated on the empty
table with no user handler registered. -/
theorem C1_parse_failure_rejected_witness :
    (control_command_callback ⟨none, none⟩ (Manager.mk []) "s1"
        [("bogus", "1")]).1
      = (false, "Could not parse Control Command. "
          ++ unexpectedKeywordRepr "bogus") ∧
    errorEmits (control_command_callback ⟨none, none⟩ (Manager.mk []) "s1"
        [("bogus", "1")]).2
      = [Action.emit COMMAND_ERROR_EVENT
          (EmitPayload.errorDict ("Could not parse Control Command. "
            ++ unexpectedKeywordRepr "bogus"))
          CONTROL_NAMESPACE (some "s1")] ∧
    commandInvokes (control_command_callback ⟨none, none⟩ (Manager.mk []) "s1"
        [("bogus", "1")]).2 = [] :=
  C1_parse_failure_rejected ⟨none, none⟩ (Manager.mk []) "s1"
    [("bogus", "1")] (unexpectedKeywordRepr "bogus") rfl

/-- C9: on parse failure the message component of the returned outcome is
character-for-character the string carried in the `error` field of the
single emitted error event, and both equal the fixed prefix followed by the
representation of the parse exception. -/
theorem C9_return_message_equals_emitted_error (cfg : ServerConfig)
    (m : Manager) (sid : Sid) (data : List (String × PyVal)) (e : String)
    (h : parseControlCommand data = .error e) :
    (control_command_callback cfg m sid data).1.1 = false ∧
    (control_command_callback cfg m sid data).1.2
      = "Could not parse Control Command. " ++ e ∧
    errorEmits (control_command_callback cfg m sid data).2
      = [Action.emit COMMAND_ERROR_EVENT
          (EmitPayload.errorDict ((control_command_callback cfg m sid data).1.2))
          CONTROL_NAMESPACE (some sid)] := by
  simp [control_command_callback, h, errorEmits, Action.isErrorEmit,
    List.filter]

/-- C9 witness: a payload missing `cmd_type`, evaluated concretely. -/
theorem C9_return_message_equals_emitted_error_witness :
    (control_command_callback ⟨none, none⟩ (Manager.mk []) "s7"
        [("data", "x")]).1.1 = false ∧
    (control_command_callback ⟨none, none⟩ (Manager.mk []) "s7"
        [("data", "x")]).1.2
      = "Could not parse Control Command. " ++ missingCmdTypeRepr ∧
    errorEmits (control_command_callback ⟨none, none⟩ (Manager.mk []) "s7"
        [("data", "x")]).2
      = [Action.emit COMMAND_ERROR_EVENT
          (EmitPayload.errorDict
            ((control_command_callback ⟨none, none⟩ (Manager.mk []) "s7"
              [("data", "x")]).1.2))
          CONTROL_NAMESPACE (some "s7")] :=
  C9_return_message_equals_emitted_error ⟨none, none⟩ (Manager.mk []) "s7"
    [("data", "x")] missingCmdTypeRepr rfl

/-- C2: a payload that parses successfully is dispatched to the registered
user handler exactly once, with the reconstructed command (whose
discriminator is the `cmd_type` field of the input payload) and the
originating session id; no error event is emitted; the outcome is the
handler result verbatim. -/
theorem C2_valid_command_dispatched_verbatim (cfg : ServerConfig)
    (m : Manager) (sid : Sid) (data : List (String × PyVal))
    (cmd : ControlCommand) (f : ControlCommand → Sid → Bool × String)
    (hp : parseControlCommand data = .ok cmd)
    (hf : cfg.command_callback = some f) :
    (control_command_callback cfg m sid data).1 = f cmd sid ∧
    commandInvokes (control_command_callback cfg m sid data).2
      = [Action.invokeUserCommand cmd sid] ∧
    errorEmits (control_command_callback cfg m sid data).2 = [] ∧
    (data.find? (fun kv => kv.1 == "cmd_type")).map (fun kv => kv.2)
      = some cmd.cmd_type := by
  refine ⟨?_, ?_, ?_, ?_⟩
  · simp [control_command_callback, hp, hf]
  · simp [control_command_callback, hp, hf, commandInvokes,
      Action.isCommandInvoke, List.filter]
  · simp [control_command_callback, hp, hf, errorEmits, Action.isErrorEmit,
      List.filter]
  · have hp2 := hp
    unfold parseControlCommand at hp2
    cases h1 : data.find? (fun kv => !(allowedKeys.contains kv.1)) with
    | some kv => rw [h1] at hp2; simp at hp2
    | none =>
      rw [h1] at hp2
      cases h2 : data.find? (fun kv => kv.1 == "cmd_type") with
      | none => rw [h2] at hp2; simp at hp2
      | some kv =>
        rw [h2] at hp2
        simp only [Except.ok.injEq] at hp2
        subst hp2
        simp

/-- C2 witness: a valid `cmd_type`-only payload dispatched through a
concrete registered handler. -/
theorem C2_valid_command_dispatched_verbatim_witness :
    (control_command_callback ⟨some sampleHandler, none⟩ (Manager.mk [])
        "s1" [("cmd_type", "ping")]).1
      = sampleHandler ⟨"ping", none⟩ "s1" ∧
    commandInvokes (control_command_callback ⟨some sampleHandler, none⟩
        (Manager.mk []) "s1" [("cmd_type", "ping")]).2
      = [Action.invokeUserCommand ⟨"ping", none⟩ "s1"] ∧
    errorEmits (control_command_callback ⟨some sampleHandler, none⟩
        (Manager.mk []) "s1" [("cmd_type", "ping")]).2 = [] ∧
    (([("cmd_type", "ping")] : List (String × PyVal)).find?
        (fun kv => kv.1 == "cmd_type")).map (fun kv => kv.2)
      = some (ControlCommand.mk "ping" none).cmd_type :=
  C2_valid_command_dispatched_verbatim ⟨some sampleHandler, none⟩
    (Manager.mk []) "s1" [("cmd_type", "ping")] ⟨"ping", none⟩
    sampleHandler rfl rfl

/-- C7: when no user handler is registered, a successfully parsed command
goes to the default handler, which unconditionally returns
`(true, "Control command callback applied")`, and no error event is
emitted. -/
theorem C7_default_handler_unconditionally_accepts (cfg : ServerConfig)
    (m : Manager) (sid : Sid) (data : List (String × PyVal))
    (cmd : ControlCommand)
    (hp : parseControlCommand data = .ok cmd)
    (hf : cfg.command_callback = none) :
    (control_command_callback cfg m sid data).1
      = (true, "Control command callback applied") ∧
    commandInvokes (control_command_callback cfg m sid data).2
      = [Action.invokeDefaultCommand cmd sid] ∧
    errorEmits (control_command_callback cfg m sid data).2 = [] := by
  simp [control_command_callback, hp, hf, command_callback, commandInvokes,
    errorEmits, Action.isCommandInvoke, Action.isErrorEmit, List.filter]

/-- C7 witness: the valid command with discriminator `ping` and no
registered handler. -/
theorem C7_default_handler_unconditionally_accepts_witness :
    (control_command_callback ⟨none, none⟩ (Manager.mk []) "s1"
        [("cmd_type", "ping")]).1
      = (true, "Control command callback applied") ∧
    commandInvokes (control_command_callback ⟨none, none⟩ (Manager.mk [])
        "s1" [("cmd_type", "ping")]).2
      = [Action.invokeDefaultCommand ⟨"ping", none⟩ "s1"] ∧
    errorEmits (control_command_callback ⟨none, none⟩ (Manager.mk []) "s1"
        [("cmd_type", "ping")]).2 = [] :=
  C7_default_handler_unconditionally_accepts ⟨none, none⟩ (Manager.mk [])
    "s1" [("cmd_type", "ping")] ⟨"ping", none⟩ rfl rfl

/-- Helper: a connection with no recorded session of the namespace
resolves to the transport null. -/
theorem sid_from_eio_sid_eq_none (m : Manager) (eio_sid : EioSid)
    (ns : String)
    (h : ∀ p ∈ m.entries, ¬(p.1 = ns ∧ p.2.1 = eio_sid)) :
    m.sid_from_eio_sid eio_sid ns = none := by
  unfold Manager.sid_from_eio_sid
  rw [Option.map_eq_none', List.find?_eq_none]
  intro p hp
  have := h p hp
  simp only [Bool.and_eq_true, beq_iff_eq]
  exact fun hc => this ⟨hc.1, hc.2⟩

/-- Helper: a session id with no recorded session of the namespace
resolves to the transport null. -/
theorem eio_sid_from_sid_eq_none (m : Manager) (sid : Sid) (ns : String)
    (h : ∀ p ∈ m.entries, ¬(p.1 = ns ∧ p.2.2 = sid)) :
    m.eio_sid_from_sid sid ns = none := by
  unfold Manager.eio_sid_from_sid
  rw [Option.map_eq_none', List.find?_eq_none]
  intro p hp
  have := h p hp
  simp only [Bool.and_eq_true, beq_iff_eq]
  exact fun hc => this ⟨hc.1, hc.2⟩

/-- Helper: after the transport removes a namespace session, the
connection-id lookup for it resolves to the transport null. -/
theorem removeSession_eio_lookup_none (m : Manager) (ns : String)
    (sid : Sid) :
    (m.removeSession ns sid).eio_sid_from_sid sid ns = none := by
  apply eio_sid_from_sid_eq_none
  intro p hp
  simp only [Manager.removeSession, List.mem_filter, Bool.not_eq_true',
    Bool.and_eq_false_iff, beq_eq_false_iff_ne, ne_eq] at hp
  rcases hp.2 with h1 | h2
  · exact fun hc => h1 hc.1
  · exact fun hc => h2 hc.2

/-- Helper: a session is recorded exactly when its id is listed among the
sessions of the namespace. -/
theorem hasSession_iff_mem_sessionsOf (m : Manager) (ns : String)
    (sid : Sid) :
    m.hasSession ns sid = true ↔ sid ∈ m.sessionsOf ns := by
  simp only [Manager.hasSession, Manager.sessionsOf, List.any_eq_true,
    List.mem_map, List.mem_filter, Bool.and_eq_true, beq_iff_eq]
  constructor
  · rintro ⟨p, hp, h1, h2⟩
    exact ⟨p, ⟨hp, h1⟩, h2⟩
  · rintro ⟨p, ⟨hp, h1⟩, h2⟩
    exact ⟨p, hp, h1, h2⟩

/-- C3 counterexample: queried before any connect (the empty session
table), the session-id lookup does not fail: it returns the ordinary
string None, and the connection-id lookup returns the transport null value
rather than raising a NotFoundError. -/
theorem C3_lookups_return_values_counterexample :
    get_sid_of_namespace (Manager.mk []) "c1" CONTROL_NAMESPACE = "None" ∧
    get_eio_sid_of_namespace (Manager.mk []) "sx" CONTROL_NAMESPACE = none := by
  decide

/-- C3 amended: when no live session of the namespace exists for the pair
(queried before connect, after disconnect, or for a namespace never
joined), neither lookup raises: the session-id lookup returns the string
None and the connection-id lookup returns the transport null, and both
sentinels also appear right after a connect followed by a disconnect of
that same session. -/
theorem C3_absent_session_lookups_return_null (m : Manager) (ns : String)
    (eio_sid : EioSid) (sid : Sid)
    (h1 : ∀ p ∈ m.entries, ¬(p.1 = ns ∧ p.2.1 = eio_sid))
    (h2 : ∀ p ∈ m.entries, ¬(p.1 = ns ∧ p.2.2 = sid)) :
    get_sid_of_namespace m eio_sid ns = "None" ∧
    get_eio_sid_of_namespace m sid ns = none ∧
    get_sid_of_namespace
      ((transportConnect m ns eio_sid sid).removeSession ns sid) eio_sid ns
      = "None" ∧
    get_eio_sid_of_namespace
      ((transportConnect m ns eio_sid sid).removeSession ns sid) sid ns
      = none := by
  refine ⟨?_, ?_, ?_, ?_⟩
  · simp [get_sid_of_namespace, sid_from_eio_sid_eq_none m eio_sid ns h1, pyStr]
  · simp [get_eio_sid_of_namespace, get_client_eio_sid,
      eio_sid_from_sid_eq_none m sid ns h2]
  · have hall : ∀ p ∈ ((transportConnect m ns eio_sid sid).removeSession
        ns sid).entries, ¬(p.1 = ns ∧ p.2.1 = eio_sid) := by
      intro p hp
      simp only [transportConnect, Manager.removeSession, List.mem_filter,
        List.mem_cons, Bool.not_eq_true', Bool.and_eq_false_iff,
        beq_eq_false_iff_ne, ne_eq] at hp
      rcases hp.1 with heq | hmem
      · subst heq
        rcases hp.2 with ha | hb
        · exact fun hc => ha hc.1
        · exact fun _ => hb rfl
      · exact h1 p hmem
    simp [get_sid_of_namespace,
      sid_from_eio_sid_eq_none _ eio_sid ns hall, pyStr]
  · simp [get_eio_sid_of_namespace, get_client_eio_sid,
      removeSession_eio_lookup_none]

/-- C3 amended witness: a table holding one unrelated data session,
queried for a control session that was never joined, then a connect and
disconnect of that control session. -/
theorem C3_absent_session_lookups_return_null_witness :
    get_sid_of_namespace (Manager.mk [(DATA_NAMESPACE, "e1", "s1")]) "e9"
      CONTROL_NAMESPACE = "None" ∧
    get_eio_sid_of_namespace (Manager.mk [(DATA_NAMESPACE, "e1", "s1")])
      "s9" CONTROL_NAMESPACE = none ∧
    get_sid_of_namespace
      ((transportConnect (Manager.mk [(DATA_NAMESPACE, "e1", "s1")])
        CONTROL_NAMESPACE "e9" "s9").removeSession CONTROL_NAMESPACE "s9")
      "e9" CONTROL_NAMESPACE = "None" ∧
    get_eio_sid_of_namespace
      ((transportConnect (Manager.mk [(DATA_NAMESPACE, "e1", "s1")])
        CONTROL_NAMESPACE "e9" "s9").removeSession CONTROL_NAMESPACE "s9")
      "s9" CONTROL_NAMESPACE = none :=
  C3_absent_session_lookups_return_null
    (Manager.mk [(DATA_NAMESPACE, "e1", "s1")]) CONTROL_NAMESPACE "e9" "s9"
    (by decide) (by decide)

/-- C5 counterexample: when session s1 connects to the data namespace
while s2 is also connected there, the welcome acknowledgment emitted by
the connect callback is delivered to s2 as well, so it is not addressed to
the newly connected session only. -/
theorem C5_welcome_reaches_other_session_counterexample :
    ("s2", "message") ∈ deliveredTo twoDataSessions
      (data_connect_callback twoDataSessions "s1") ∧
    "s2" ≠ "s1" := by
  decide

/-- C5 amended: the connect callback of each namespace performs exactly
one emission — the welcome text naming the new session — without a target,
so the transport broadcasts it to every session of that namespace
(including the newly connected one); the callback performs no state
mutation, its whole result being the trace. -/
theorem C5_welcome_is_namespace_broadcast (m : Manager) (sid : Sid) :
    (data_connect_callback m sid).filter Action.isEmit
      = [Action.emit "message"
          (EmitPayload.text ("You are connected to " ++ DATA_NAMESPACE
            ++ " namespace " ++ sid)) DATA_NAMESPACE none] ∧
    (control_connect_callback m sid).filter Action.isEmit
      = [Action.emit "message"
          (EmitPayload.text ("You are connected to " ++ CONTROL_NAMESPACE
            ++ " namespace " ++ sid)) CONTROL_NAMESPACE none] ∧
    (∀ s ∈ m.sessionsOf DATA_NAMESPACE,
      (s, "message") ∈ deliveredTo m (data_connect_callback m sid)) ∧
    (m.hasSession DATA_NAMESPACE sid = true →
      (sid, "message") ∈ deliveredTo m (data_connect_callback m sid)) := by
  refine ⟨?_, ?_, ?_, ?_⟩
  · simp [data_connect_callback, Action.isEmit, List.filter]
  · simp [control_connect_callback, Action.isEmit, List.filter]
  · intro s hs
    simp only [data_connect_callback, deliveredTo, List.foldr, recipients,
      List.append_nil, List.mem_map]
    exact ⟨s, hs, rfl⟩
  · intro h
    have hs := (hasSession_iff_mem_sessionsOf m DATA_NAMESPACE sid).mp h
    simp only [data_connect_callback, deliveredTo, List.foldr, recipients,
      List.append_nil, List.mem_map]
    exact ⟨sid, hs, rfl⟩

/-- C5 amended witness: the two-session data table; the newly connected
session s1 is itself among the recipients of the broadcast welcome. -/
theorem C5_welcome_is_namespace_broadcast_witness :
    twoDataSessions.hasSession DATA_NAMESPACE "s1" = true ∧
    ("s1", "message") ∈ deliveredTo twoDataSessions
      (data_connect_callback twoDataSessions "s1") :=
  ⟨by decide,
    (C5_welcome_is_namespace_broadcast twoDataSessions "s1").2.2.2 (by decide)⟩

/-- C6: a data-namespace disconnect event invokes exactly one disconnect
handler — the user-supplied one when present, else the no-op default — and
the handler runs against the table that still holds the session: the log
line produced after it resolves the session id to its connection id; only
the resulting table has the entry removed.  A control-namespace disconnect
event invokes no disconnect hook. -/
theorem C6_data_disconnect_hook_runs_before_removal (cfg : ServerConfig)
    (m : Manager) (eio_sid : EioSid) (sid : Sid)
    (h : m.eio_sid_from_sid sid DATA_NAMESPACE = some eio_sid) :
    disconnectInvokes (transportDisconnect cfg m DATA_NAMESPACE sid).2
      = [match cfg.disconnect_callback with
         | some _ => Action.invokeUserDisconnect sid
         | none => Action.invokeDefaultDisconnect sid] ∧
    Action.log ("Client with eio_sid " ++ eio_sid ++ " disconnected from "
        ++ DATA_NAMESPACE ++ " namespace, sid " ++ sid)
      ∈ (transportDisconnect cfg m DATA_NAMESPACE sid).2 ∧
    (transportDisconnect cfg m DATA_NAMESPACE sid).1.eio_sid_from_sid sid
      DATA_NAMESPACE = none ∧
    disconnectInvokes (transportDisconnect cfg m CONTROL_NAMESPACE sid).2
      = [] := by
  refine ⟨?_, ?_, ?_, ?_⟩
  · cases hc : cfg.disconnect_callback with
    | some u =>
      simp [transportDisconnect, data_disconnect_callback, hc,
        disconnectInvokes, Action.isDisconnectInvoke, List.filter]
    | none =>
      simp [transportDisconnect, data_disconnect_callback, hc,
        disconnectInvokes, Action.isDisconnectInvoke, List.filter]
  · cases hc : cfg.disconnect_callback with
    | some u =>
      simp [transportDisconnect, data_disconnect_callback, hc,
        get_eio_sid_of_data, get_client_eio_sid, h, pyStr]
    | none =>
      simp [transportDisconnect, data_disconnect_callback, hc,
        get_eio_sid_of_data, get_client_eio_sid, h, pyStr]
  · simp [transportDisconnect, removeSession_eio_lookup_none]
  · have hns : (CONTROL_NAMESPACE == DATA_NAMESPACE) = false := by decide
    simp [transportDisconnect, hns, control_disconnect_callback,
      disconnectInvokes, Action.isDisconnectInvoke, List.filter]

/-- C6 witness: one data session, a registered user disconnect handler. -/
theorem C6_data_disconnect_hook_runs_before_removal_witness :
    disconnectInvokes (transportDisconnect ⟨none, some ()⟩
        (Manager.mk [(DATA_NAMESPACE, "e1", "s1")]) DATA_NAMESPACE "s1").2
      = [Action.invokeUserDisconnect "s1"] ∧
    Action.log ("Client with eio_sid " ++ "e1" ++ " disconnected from "
        ++ DATA_NAMESPACE ++ " namespace, sid " ++ "s1")
      ∈ (transportDisconnect ⟨none, some ()⟩
          (Manager.mk [(DATA_NAMESPACE, "e1", "s1")]) DATA_NAMESPACE "s1").2 ∧
    (transportDisconnect ⟨none, some ()⟩
        (Manager.mk [(DATA_NAMESPACE, "e1", "s1")]) DATA_NAMESPACE
        "s1").1.eio_sid_from_sid "s1" DATA_NAMESPACE = none ∧
    disconnectInvokes (transportDisconnect ⟨none, some ()⟩
        (Manager.mk [(DATA_NAMESPACE, "e1", "s1")]) CONTROL_NAMESPACE
        "s1").2 = [] :=
  C6_data_disconnect_hook_runs_before_removal ⟨none, some ()⟩
    (Manager.mk [(DATA_NAMESPACE, "e1", "s1")]) "e1" "s1" rfl

/-- C8: `send_command_error` performs exactly one emission — the
structured error dictionary addressed to the given control session — and
leaves the session table untouched; when the session has already
disconnected the emission is delivered to nobody (silently dropped), and a
repeated call still leaves the table unchanged, so the session is never
resurrected. -/
theorem C8_send_command_error_drops_on_disconnected (m : Manager)
    (message : String) (sid : Sid) :
    (send_command_error m message sid).2
      = [Action.emit COMMAND_ERROR_EVENT (EmitPayload.errorDict message)
          CONTROL_NAMESPACE (some sid)] ∧
    (send_command_error m message sid).1 = m ∧
    (m.hasSession CONTROL_NAMESPACE sid = false →
      deliveredTo m (send_command_error m message sid).2 = [] ∧
      (send_command_error (send_command_error m message sid).1 message
        sid).1 = m ∧
      ((send_command_error (send_command_error m message sid).1 message
        sid).1.hasSession CONTROL_NAMESPACE sid) = false) := by
  refine ⟨rfl, rfl, fun h => ⟨?_, rfl, ?_⟩⟩
  · simp [send_command_error, deliveredTo, recipients, h]
  · simpa [send_command_error] using h

/-- C8 witness: the error emission for a session that never connected, on
the empty table. -/
theorem C8_send_command_error_drops_on_disconnected_witness :
    (Manager.mk []).hasSession CONTROL_NAMESPACE "gone" = false ∧
    (deliveredTo (Manager.mk [])
        (send_command_error (Manager.mk []) "boom" "gone").2 = [] ∧
      (send_command_error (send_command_error (Manager.mk []) "boom"
        "gone").1 "boom" "gone").1 = Manager.mk [] ∧
      ((send_command_error (send_command_error (Manager.mk []) "boom"
        "gone").1 "boom" "gone").1.hasSession CONTROL_NAMESPACE "gone")
        = false) :=
  ⟨by decide,
    (C8_send_command_error_drops_on_disconnected (Manager.mk []) "boom"
      "gone").2.2 (by decide)⟩

end EraServer
